import Mathlib

/-!
# Verification of the MostlyGoodMetrics JavaScript SDK event pipeline

A shallow embedding, in Lean 4, of the event delivery pipeline of the
`mostly-good-metrics-js` SDK: the bounded FIFO event queue (`src/storage.ts`),
the delivery client with its HTTP-outcome classification and rate-limit
cooldown state (`src/network.ts`), and the flush controller and facade
(`src/client.ts`).  Asynchronous JavaScript methods are modelled as pure
state-passing functions; a promise rejection (a thrown error escaping to the
caller) is modelled as an explicit `Option MGMError` / `Except` component of
the result.  Wall-clock time (`Date.now()`, milliseconds) is threaded as an
explicit `Int` parameter.
-/

/-- Error taxonomy of the SDK, from `MGMErrorType` in `src/types.ts`. -/
inductive MGMErrorType where
  | NETWORK_ERROR
  | ENCODING_ERROR
  | BAD_REQUEST
  | UNAUTHORIZED
  | FORBIDDEN
  | RATE_LIMITED
  | SERVER_ERROR
  | INVALID_EVENT_NAME
  | STORAGE_ERROR
  | UNKNOWN_ERROR
deriving DecidableEq

/-- The SDK error class `MGMError` from `src/types.ts`: a type tag, a message,
and the optional `retryAfter` (seconds) and `statusCode` payloads. -/
structure MGMError where
  type : MGMErrorType
  message : String
  retryAfter : Option Int := none
  statusCode : Option Nat := none
deriving DecidableEq

/-- `SendResult` from `src/types.ts`: either `{ success: true }` or
`{ success: false, error, shouldRetry }`. -/
inductive SendResult where
  | success
  | failure (error : MGMError) (shouldRetry : Bool)
deriving DecidableEq

/-- An analytics event, from the `MGMEvent` interface in `src/types.ts`.
The TypeScript interface declares `client_event_id : string` as a required
field ("Unique client-generated ID for deduplication"); here every field
that a constructed JavaScript object may lack at runtime is an `Option`,
with `none` meaning the field is absent from the object.  Properties are
modelled as an association list of sanitized key/value pairs. -/
structure MGMEvent where
  name : String
  client_event_id : Option String
  timestamp : String
  userId : Option String := none
  sessionId : Option String := none
  platform : String
  appVersion : Option String := none
  appBuildNumber : Option String := none
  osVersion : Option String := none
  environment : String
  deviceManufacturer : Option String := none
  locale : Option String := none
  timezone : Option String := none
  properties : Option (List (String × String)) := none
deriving DecidableEq

/-- A concrete event used to instantiate theorems on explicit inputs. -/
def sampleEvent : MGMEvent :=
  { name := "test_event"
    client_event_id := none
    timestamp := "2026-01-01T00:00:00.000Z"
    platform := "web"
    environment := "production" }

/-!
## Network delivery client (`src/network.ts`, class `FetchNetworkClient`)
-/

/-- The mutable state of `FetchNetworkClient`: the single
`retryAfterTime : Date | null` field (epoch milliseconds). -/
structure NetState where
  retryAfterTime : Option Int
deriving DecidableEq

/-- `FetchNetworkClient.isRateLimited` (`src/network.ts:204-215`).  Returns
the boolean answer together with the state after the call: when the stored
deadline has passed (`Date.now() >= retryAfterTime`), the method clears
`retryAfterTime` to `null` and answers `false`. -/
def isRateLimited (now : Int) (st : NetState) : Bool × NetState :=
  match st.retryAfterTime with
  | none => (false, st)
  | some t => if now ≥ t then (false, ⟨none⟩) else (true, st)

/-- The outcome of the `fetch` call in `sendEvents`: an HTTP response (status
code plus the parsed integer value of the `Retry-After` header when present),
an `AbortError` (the 60 s request timeout fired), or any other thrown
network/transport error. -/
inductive FetchOutcome where
  | response (status : Nat) (retryAfterHeader : Option Int)
  | abortError
  | networkError (message : String)
deriving DecidableEq

/-- `FetchNetworkClient.handleResponse` (`src/network.ts:129-199`):
classifies the HTTP status code and, on 429, stores the cooldown deadline
`Date.now() + retryAfterSeconds * 1000` into `retryAfterTime`. -/
def handleResponse (now : Int) (status : Nat) (retryAfterHeader : Option Int)
    (st : NetState) : SendResult × NetState :=
  if status = 204 ∨ status = 200 then
    (.success, st)
  else if status = 429 then
    let retryAfterSeconds : Int := retryAfterHeader.getD 60
    (.failure
        { type := .RATE_LIMITED
          message := "Rate limited by server"
          retryAfter := some retryAfterSeconds
          statusCode := some status } true,
      ⟨some (now + retryAfterSeconds * 1000)⟩)
  else if 400 ≤ status ∧ status < 500 then
    let errorType : MGMErrorType :=
      if status = 400 then .BAD_REQUEST
      else if status = 401 then .UNAUTHORIZED
      else if status = 403 then .FORBIDDEN
      else .BAD_REQUEST
    (.failure
        { type := errorType
          message := "Server returned " ++ toString status
          statusCode := some status } false,
      st)
  else if 500 ≤ status then
    (.failure
        { type := .SERVER_ERROR
          message := "Server error: " ++ toString status
          statusCode := some status } true,
      st)
  else
    (.failure
        { type := .UNKNOWN_ERROR
          message := "Unexpected status code: " ++ toString status
          statusCode := some status } true,
      st)

/-- `Math.ceil (w / 1000)` on an integer number of milliseconds `w`. -/
def ceilDiv1000 (w : Int) : Int := (w + 999).ediv 1000

/-- Result of one `sendEvents` call: the `SendResult`, the client state after
the call, and whether the network (the `fetch` call) was actually reached. -/
structure SendOut where
  result : SendResult
  net : NetState
  networkCalled : Bool
deriving DecidableEq

/-- `FetchNetworkClient.sendEvents` (`src/network.ts:55-124`).  First checks
`isRateLimited()`; when limited it short-circuits to a `RATE_LIMITED` failure
(with `retryAfter := Math.ceil(waitMs / 1000)` taken from the stored
deadline) without touching the network.  Otherwise the `fetch` outcome is
either a response handed to `handleResponse`, an `AbortError` (timeout), or
another thrown error; the latter two yield `NETWORK_ERROR` failures with
`shouldRetry: true`. -/
def sendEvents (now : Int) (outcome : FetchOutcome) (st : NetState) : SendOut :=
  if (isRateLimited now st).1 then
    let waitMs : Int :=
      match (isRateLimited now st).2.retryAfterTime with
      | some t => t - now
      | none => 0
    { result := .failure
        { type := .RATE_LIMITED
          message := "Rate limited, please retry later"
          retryAfter := some (ceilDiv1000 waitMs) } true
      net := (isRateLimited now st).2
      networkCalled := false }
  else
    match outcome with
    | .response status hdr =>
      let r := handleResponse now status hdr (isRateLimited now st).2
      { result := r.1, net := r.2, networkCalled := true }
    | .abortError =>
      { result := .failure { type := .NETWORK_ERROR, message := "Request timed out" } true
        net := (isRateLimited now st).2
        networkCalled := true }
    | .networkError msg =>
      { result := .failure { type := .NETWORK_ERROR, message := msg } true
        net := (isRateLimited now st).2
        networkCalled := true }

/-- The spec's four-way result taxonomy (spec section 4.2), as a view on the
source's `SendResult`: `RateLimited` is a failure tagged `RATE_LIMITED`
(carrying its cooldown seconds), and the remaining failures are split by the
`shouldRetry` flag. -/
inductive Classification where
  | Success
  | RateLimited (cooldownSeconds : Int)
  | Retryable
  | NonRetryable
deriving DecidableEq

/-- Map a `SendResult` to the spec's taxonomy. -/
def classify : SendResult → Classification
  | .success => .Success
  | .failure err shouldRetry =>
    if err.type = .RATE_LIMITED then .RateLimited (err.retryAfter.getD 0)
    else if shouldRetry then .Retryable
    else .NonRetryable

/-!
## Event queue storage (`src/storage.ts`)
-/

/-- `Constraints.MIN_STORED_EVENTS` from `src/types.ts`: the hard floor of
the local queue capacity. -/
def MIN_STORED_EVENTS : Nat := 100

/-- The constructor clamp used by both storage backends
(`Math.max(maxEvents, Constraints.MIN_STORED_EVENTS)`). -/
def clampCapacity (maxEvents : Nat) : Nat := max maxEvents MIN_STORED_EVENTS

/-- The `store` body shared by `InMemoryEventStorage.store`
(`src/storage.ts:95-104`) and `LocalStorageEventStorage.store`
(`src/storage.ts:171-183`): push the event to the tail, then, when the
length exceeds the limit, splice the excess oldest events off the head. -/
def storeEvent (maxEvents : Nat) (events : List MGMEvent) (e : MGMEvent) :
    List MGMEvent :=
  let es := events ++ [e]
  if es.length > maxEvents then es.drop (es.length - maxEvents) else es

/-- `fetchEvents(limit)`: `this.events.slice(0, limit)` — read-only. -/
def fetchEvents (events : List MGMEvent) (limit : Nat) : List MGMEvent :=
  events.take limit

/-- `removeEvents(count)`: `this.events.splice(0, count)`. -/
def removeEvents (events : List MGMEvent) (count : Nat) : List MGMEvent :=
  events.drop count

/-- A fresh storage constructed with the configured maximum, fed a sequence
of `store` calls. -/
def storeAll (cfgMax : Nat) (evs : List MGMEvent) : List MGMEvent :=
  evs.foldl (storeEvent (clampCapacity cfgMax)) []

/-- The error thrown by `LocalStorageEventStorage.saveEvents` when
`localStorage.setItem` fails (`src/storage.ts:162-169`). -/
def storageWriteError : MGMError :=
  { type := .STORAGE_ERROR, message := "Failed to save events to localStorage" }

/-- `LocalStorageEventStorage` state: the clamped capacity plus the
in-memory cache of the events loaded from localStorage. -/
structure LSState where
  maxEvents : Nat
  events : List MGMEvent
deriving DecidableEq

/-- Result of a `LocalStorageEventStorage` mutation: the state after the
call (the cache is mutated before `saveEvents` runs) and the error
propagated to the caller, if any. -/
structure LSStoreOut where
  state : LSState
  thrown : Option MGMError
deriving DecidableEq

/-- `saveEvents` (`src/storage.ts:162-169`) logs and rethrows a
`STORAGE_ERROR` when the underlying `localStorage.setItem` call fails.  The
`writeOk` flag abstracts whether that persistence write succeeds. -/
def lsSaveEvents (writeOk : Bool) : Option MGMError :=
  if writeOk then none else some storageWriteError

/-- `LocalStorageEventStorage.store` (`src/storage.ts:171-183`): mutate the
cache (push + trim) and then `saveEvents`; a save failure escapes to the
caller of `store`. -/
def lsStore (writeOk : Bool) (st : LSState) (e : MGMEvent) : LSStoreOut :=
  { state := ⟨st.maxEvents, storeEvent st.maxEvents st.events e⟩
    thrown := lsSaveEvents writeOk }

/-!
## Event-name validation (`src/utils.ts`, reproduced in `src/network.test.ts`)
-/

/-- `Constraints.MAX_EVENT_NAME_LENGTH` from `src/types.ts`. -/
def MAX_EVENT_NAME_LENGTH : Nat := 255

/-- An ASCII letter, as matched by `[a-zA-Z]`. -/
def isAsciiLetterChar (c : Char) : Bool :=
  ('a' ≤ c && c ≤ 'z') || ('A' ≤ c && c ≤ 'Z')

/-- A character of the name tail, as matched by `[a-zA-Z0-9_]`. -/
def isNameChar (c : Char) : Bool :=
  isAsciiLetterChar c || ('0' ≤ c && c ≤ '9') || c = '_'

/-- The `EVENT_NAME_REGEX` of `src/types.ts`: an optional leading dollar
sign, then a letter, then letters, digits or underscores. -/
def eventNameMatches (s : String) : Bool :=
  match s.toList with
  | [] => false
  | c :: rest =>
    match (if c = '$' then rest else c :: rest) with
    | [] => false
    | d :: tail => isAsciiLetterChar d && tail.all isNameChar

/-- `validateEventName` (from the utils module): throws an
`INVALID_EVENT_NAME` error on an empty, overlong or non-matching name. -/
def validateEventName (name : String) : Except MGMError Unit :=
  if name = "" then
    .error { type := .INVALID_EVENT_NAME, message := "Event name is required" }
  else if name.length > MAX_EVENT_NAME_LENGTH then
    .error { type := .INVALID_EVENT_NAME
             message := "Event name must be 255 characters or less" }
  else if ¬ eventNameMatches name then
    .error { type := .INVALID_EVENT_NAME
             message := "Event name must start with a letter" }
  else
    .ok ()

/-!
## Facade and flush controller (`src/client.ts`)
-/

/-- Inputs to the event constructed by `track` (`src/client.ts:243-276`)
that come from configuration, identity persistence and environment
detection at the time of the call. -/
structure TrackContext where
  timestamp : String
  userId : Option String
  sessionId : String
  platform : String
  configAppVersion : String
  configOsVersion : String
  detectedOsVersion : String
  environment : String
  locale : String
  timezone : String
  mergedProperties : List (String × String)
deriving DecidableEq

/-- JavaScript `a || b` on strings: take `b` when `a` is empty (falsy). -/
def jsOrString (a b : String) : String := if a = "" then b else a

/-- JavaScript `s || undefined` on a string. -/
def orUndefined (s : String) : Option String := if s = "" then none else some s

/-- The event object literal built by `track` (`src/client.ts:264-276`).
The literal contains no `client_event_id` field — although the `MGMEvent`
interface in `src/types.ts` declares that field as required — so the model
sets it to `none` (absent). -/
def buildTrackEvent (name : String) (ctx : TrackContext) : MGMEvent :=
  { name := name
    client_event_id := none
    timestamp := ctx.timestamp
    userId := ctx.userId
    sessionId := some ctx.sessionId
    platform := ctx.platform
    appVersion := orUndefined ctx.configAppVersion
    osVersion := orUndefined (jsOrString ctx.configOsVersion ctx.detectedOsVersion)
    environment := ctx.environment
    locale := some ctx.locale
    timezone := some ctx.timezone
    properties :=
      if ctx.mergedProperties.isEmpty then none else some ctx.mergedProperties }

/-- Result of a `track` call: the storage state afterwards and the error
raised to the producer, if any. -/
structure TrackOut where
  state : LSState
  thrown : Option MGMError
deriving DecidableEq

/-- `MostlyGoodMetrics.track` (`src/client.ts:243-287`): an invalid event
name is caught and logged (the call returns); the asynchronous
`storage.store(event)` rejection is swallowed by the attached `.catch`
handler; nothing is raised to the producer. -/
def track (writeOk : Bool) (name : String) (ctx : TrackContext) (st : LSState) :
    TrackOut :=
  match validateEventName name with
  | .error _ => { state := st, thrown := none }
  | .ok _ =>
    let out := lsStore writeOk st (buildTrackEvent name ctx)
    { state := out.state, thrown := none }

/-- Result of one `performFlush` pass: the queue and the network state after
the pass, the number of invocations of an external error-observer callback
during the pass (the source's `performFlush` contains no such invocation, so
the count is never incremented — the field exists to state claims about the
error hook), and the error escaping the pass, if any. -/
structure FlushOut where
  storage : List MGMEvent
  net : NetState
  observerCalls : Nat
  thrown : Option MGMError
deriving DecidableEq

/-- `MostlyGoodMetrics.performFlush` (`src/client.ts:412-454`): loop while
events remain — stop when the queue is empty or the delivery client reports
rate-limited; fetch up to `maxBatchSize` events from the head; send them; on
success, or on a non-retryable failure (dropping the batch), remove exactly
the sent count from the head and continue; on a retryable failure stop,
leaving the queue untouched.

`writeOk` abstracts the storage backend's persistence writes: `true` for the
in-memory backend or a healthy localStorage.  With `writeOk = false`,
`removeEvents` splices the cache and then `saveEvents` rethrows
(`src/storage.ts:190-194` with `162-169`), so the error escapes the loop
with the batch already removed from the cache.  `outcomes` scripts the fetch
outcome of each successive network attempt, and `now` is the (constant)
clock during the pass.  The pure values `isRateLimited now net` and
`sendEvents now (outcomes attempt) _` are repeated where the source binds
the single call result to a local. -/
def performFlush (writeOk : Bool) (now : Int) (maxBatchSize : Nat)
    (outcomes : Nat → FetchOutcome) (attempt : Nat)
    (storage : List MGMEvent) (net : NetState) : FlushOut :=
  if storage.length = 0 then ⟨storage, net, 0, none⟩
  else if (isRateLimited now net).1 then ⟨storage, (isRateLimited now net).2, 0, none⟩
  else if h : (storage.take maxBatchSize).length = 0 then
    ⟨storage, (isRateLimited now net).2, 0, none⟩
  else
    match (sendEvents now (outcomes attempt) (isRateLimited now net).2).result with
    | .success =>
      if writeOk then
        performFlush writeOk now maxBatchSize outcomes (attempt + 1)
          (storage.drop (storage.take maxBatchSize).length)
          (sendEvents now (outcomes attempt) (isRateLimited now net).2).net
      else
        ⟨storage.drop (storage.take maxBatchSize).length,
          (sendEvents now (outcomes attempt) (isRateLimited now net).2).net, 0,
          some storageWriteError⟩
    | .failure _ shouldRetry =>
      if shouldRetry then
        ⟨storage, (sendEvents now (outcomes attempt) (isRateLimited now net).2).net,
          0, none⟩
      else if writeOk then
        performFlush writeOk now maxBatchSize outcomes (attempt + 1)
          (storage.drop (storage.take maxBatchSize).length)
          (sendEvents now (outcomes attempt) (isRateLimited now net).2).net
      else
        ⟨storage.drop (storage.take maxBatchSize).length,
          (sendEvents now (outcomes attempt) (isRateLimited now net).2).net, 0,
          some storageWriteError⟩
termination_by storage.length
decreasing_by
  all_goals
    simp only [List.length_drop, List.length_take] at h ⊢
    omega

/-- The client state seen by `flush`: the queue, the delivery client state
and the `isFlushingInternal` flag. -/
structure ClientState where
  storage : List MGMEvent
  net : NetState
  isFlushingInternal : Bool
deriving DecidableEq

/-- Result of a `flush` call: the client state afterwards, the error raised
to the awaiting caller (if any), the observer-invocation count of the pass,
and whether a delivery pass was started at all. -/
structure FlushResult where
  state : ClientState
  thrown : Option MGMError
  observerCalls : Nat
  ranPass : Bool
deriving DecidableEq

/-- `MostlyGoodMetrics.flush` (`src/client.ts:321-335`): when a flush is
already in progress the call returns immediately as a no-op; otherwise the
flag is raised, one `performFlush` pass runs, and the `finally` block lowers
the flag — also when the pass throws, in which case the error still
propagates to the awaiting caller. -/
def flush (writeOk : Bool) (now : Int) (maxBatchSize : Nat)
    (outcomes : Nat → FetchOutcome) (st : ClientState) : FlushResult :=
  if st.isFlushingInternal then
    { state := st, thrown := none, observerCalls := 0, ranPass := false }
  else
    let out := performFlush writeOk now maxBatchSize outcomes 0 st.storage st.net
    { state := ⟨out.storage, out.net, false⟩
      thrown := out.thrown
      observerCalls := out.observerCalls
      ranPass := true }

/-- The singleton instance, modelled by the data `configure` needs. -/
structure MGMInstance where
  apiKey : String
deriving DecidableEq

/-- JavaScript falsiness of `config.apiKey` (the `!config.apiKey` test): the
key is missing or the empty string. -/
def jsFalsyString : Option String → Bool
  | none => true
  | some s => s = ""

/-- Result of `configure`: the value returned (or error thrown) to the
caller, and the singleton slot afterwards. -/
structure ConfigureResult where
  returned : Except String MGMInstance
  singleton : Option MGMInstance

/-- `MostlyGoodMetrics.configure` (`src/client.ts:78-90`): throws before
touching the singleton when the key is falsy; returns the existing instance
unchanged when already configured; otherwise constructs and installs a new
instance. -/
def configure (apiKey : Option String) (inst : Option MGMInstance) :
    ConfigureResult :=
  if jsFalsyString apiKey then
    { returned := .error "API key is required", singleton := inst }
  else
    match inst with
    | some i => { returned := .ok i, singleton := some i }
    | none => { returned := .ok ⟨apiKey.getD ""⟩, singleton := some ⟨apiKey.getD ""⟩ }

/-!
## Helper lemmas
-/

theorem classify_eq_success_iff (r : SendResult) :
    classify r = .Success ↔ r = .success := by
  cases r with
  | success => simp [classify]
  | failure err sr =>
    simp only [classify]
    split <;> simp_all
    split <;> simp_all

theorem classify_eq_nonRetryable (r : SendResult) :
    classify r = .NonRetryable → ∃ e, r = .failure e false := by
  cases r with
  | success => simp [classify]
  | failure err sr =>
    simp only [classify]
    split
    · simp
    · split <;> simp_all

/-- Every `RATE_LIMITED` failure produced by `sendEvents` carries
`shouldRetry = true` (all three construction sites in the source set it). -/
theorem sendEvents_rateLimited_shouldRetry (now : Int) (o : FetchOutcome)
    (st : NetState) (e : MGMError) (sr : Bool)
    (h : (sendEvents now o st).result = .failure e sr)
    (ht : e.type = .RATE_LIMITED) : sr = true := by
  cases o with
  | response status hdr =>
    simp only [sendEvents] at h
    split at h
    · simp at h
      exact h.2
    · simp only [handleResponse] at h
      split_ifs at h <;> simp_all
      all_goals (obtain ⟨h1, h2⟩ := h; subst h1; simp at ht)
  | abortError =>
    simp only [sendEvents] at h
    split at h
    · simp at h
      exact h.2
    · simp at h
      exact h.2
  | networkError msg =>
    simp only [sendEvents] at h
    split at h
    · simp at h
      exact h.2
    · simp at h
      exact h.2

theorem classify_eq_retryable_or_rateLimited (now : Int) (o : FetchOutcome)
    (st : NetState)
    (h : classify (sendEvents now o st).result = .Retryable ∨
         ∃ c, classify (sendEvents now o st).result = .RateLimited c) :
    ∃ e, (sendEvents now o st).result = .failure e true := by
  rcases h with h | ⟨c, h⟩
  · cases hr : (sendEvents now o st).result with
    | success => rw [hr] at h; simp [classify] at h
    | failure err sr =>
      rw [hr] at h
      simp only [classify] at h
      split at h
      · simp at h
      · split at h
        · exact ⟨err, by simp_all⟩
        · simp at h
  · cases hr : (sendEvents now o st).result with
    | success => rw [hr] at h; simp [classify] at h
    | failure err sr =>
      rw [hr] at h
      simp only [classify] at h
      split at h
      · rename_i htype
        have := sendEvents_rateLimited_shouldRetry now o st err sr hr htype
        exact ⟨err, by simp_all⟩
      · split at h <;> simp at h

/-- Unfolding lemma for `performFlush`: a successful or non-retryable send
removes exactly the fetched count from the queue head and the loop
continues from the shrunken queue. -/
theorem performFlush_continue (now : Int) (bs : Nat) (outcomes : Nat → FetchOutcome)
    (attempt : Nat) (storage : List MGMEvent) (net : NetState)
    (h0 : storage.length ≠ 0)
    (hrl : (isRateLimited now net).1 = false)
    (hev : (storage.take bs).length ≠ 0)
    (hres : (sendEvents now (outcomes attempt) (isRateLimited now net).2).result = .success
      ∨ ∃ e, (sendEvents now (outcomes attempt) (isRateLimited now net).2).result
          = .failure e false) :
    performFlush true now bs outcomes attempt storage net =
      performFlush true now bs outcomes (attempt + 1)
        (storage.drop (storage.take bs).length)
        (sendEvents now (outcomes attempt) (isRateLimited now net).2).net := by
  conv_lhs => unfold performFlush
  rw [if_neg h0, if_neg (by simp [hrl]), dif_neg hev]
  rcases hres with hres | ⟨e, hres⟩
  · simp only [hres]
    simp
  · simp only [hres]
    simp

/-- Unfolding lemma for `performFlush`: a retryable send failure stops the
loop with the queue untouched. -/
theorem performFlush_stop (now : Int) (bs : Nat) (outcomes : Nat → FetchOutcome)
    (attempt : Nat) (storage : List MGMEvent) (net : NetState)
    (h0 : storage.length ≠ 0)
    (hrl : (isRateLimited now net).1 = false)
    (hev : (storage.take bs).length ≠ 0)
    (e : MGMError)
    (hres : (sendEvents now (outcomes attempt) (isRateLimited now net).2).result
      = .failure e true) :
    performFlush true now bs outcomes attempt storage net =
      ⟨storage, (sendEvents now (outcomes attempt) (isRateLimited now net).2).net,
        0, none⟩ := by
  conv_lhs => unfold performFlush
  rw [if_neg h0, if_neg (by simp [hrl]), dif_neg hev]
  simp only [hres]
  simp

/-- Invariants of the flush pass: the error-observer invocation count is
always zero (the source contains no invocation), and with reliable
persistence writes no error escapes the pass. -/
theorem performFlush_invariants (w : Bool) (now : Int) (bs : Nat)
    (outcomes : Nat → FetchOutcome) (attempt : Nat)
    (storage : List MGMEvent) (net : NetState) :
    (performFlush w now bs outcomes attempt storage net).observerCalls = 0 ∧
    (w = true → (performFlush w now bs outcomes attempt storage net).thrown = none) := by
  induction attempt, storage, net using performFlush.induct w now bs outcomes with
  | case1 a s n h =>
    unfold performFlush
    rw [if_pos h]
    exact ⟨rfl, fun _ => rfl⟩
  | case2 a s n h1 h2 =>
    unfold performFlush
    rw [if_neg h1, if_pos h2]
    exact ⟨rfl, fun _ => rfl⟩
  | case3 a s n h1 h2 h3 =>
    unfold performFlush
    rw [if_neg h1, if_neg h2, dif_pos h3]
    exact ⟨rfl, fun _ => rfl⟩
  | case4 a s n h1 h2 h3 hres hw ih =>
    unfold performFlush
    rw [if_neg h1, if_neg h2, dif_neg h3]
    simp only [hres, if_pos hw]
    exact ⟨ih.1, fun _ => ih.2 hw⟩
  | case5 a s n h1 h2 h3 hres hw =>
    unfold performFlush
    rw [if_neg h1, if_neg h2, dif_neg h3]
    simp only [hres, if_neg hw]
    refine ⟨?_, fun hww => absurd hww hw⟩
    simp
  | case6 a s n h1 h2 h3 e hres =>
    unfold performFlush
    rw [if_neg h1, if_neg h2, dif_neg h3]
    simp only [hres]
    simp
  | case7 a s n h1 h2 h3 e sr hres hsr hw ih =>
    unfold performFlush
    rw [if_neg h1, if_neg h2, dif_neg h3]
    simp only [hres, if_neg hsr, if_pos hw]
    exact ⟨ih.1, fun _ => ih.2 hw⟩
  | case8 a s n h1 h2 h3 e sr hres hsr hw =>
    unfold performFlush
    rw [if_neg h1, if_neg h2, dif_neg h3]
    simp only [hres, if_neg hsr, if_neg hw]
    refine ⟨?_, fun hww => absurd hww hw⟩
    simp

/-- One `store` keeps the queue within capacity. -/
theorem storeEvent_length_le (cap : Nat) (es : List MGMEvent) (e : MGMEvent)
    (hle : es.length ≤ cap) : (storeEvent cap es e).length ≤ cap := by
  simp only [storeEvent]
  split
  · simp only [List.length_drop, List.length_append, List.length_singleton]
    omega
  · rename_i h
    simp only [List.length_append, List.length_singleton] at h ⊢
    omega

/-- `store` always leaves the suffix of the pushed list that fits within
capacity: only the oldest events are evicted. -/
theorem storeEvent_eq_drop (cap : Nat) (es : List MGMEvent) (e : MGMEvent) :
    storeEvent cap es e = (es ++ [e]).drop ((es ++ [e]).length - cap) := by
  simp only [storeEvent]
  split
  · rfl
  · rename_i h
    have hz : (es ++ [e]).length - cap = 0 := by omega
    rw [hz, List.drop_zero]

/-- Dropping from the head commutes with a later append and a later drop. -/
theorem drop_append_drop (n k : Nat) (l m : List MGMEvent) :
    ((l.drop n) ++ m).drop k = (l ++ m).drop (k + min n l.length) := by
  have h1 : (l.drop n) ++ m = (l ++ m).drop (min n l.length) := by
    rw [List.drop_append_eq_append_drop]
    have h2 : min n l.length - l.length = 0 := by omega
    have h3 : l.drop n = l.drop (min n l.length) := by
      rcases Nat.le_total n l.length with h | h
      · rw [Nat.min_eq_left h]
      · rw [Nat.min_eq_right h, List.drop_eq_nil_of_le h, List.drop_length]
    rw [h2, List.drop_zero, ← h3]
  rw [h1, List.drop_drop, Nat.add_comm]

/-- Folding any sequence of stores from a within-capacity state retains
exactly the most recent `cap` entries of the combined stream. -/
theorem foldl_storeEvent (cap : Nat) (evs : List MGMEvent) :
    ∀ acc : List MGMEvent, acc.length ≤ cap →
      List.foldl (storeEvent cap) acc evs
        = (acc ++ evs).drop ((acc ++ evs).length - cap) := by
  induction evs with
  | nil =>
    intro acc hacc
    simp only [List.foldl_nil, List.append_nil]
    have hz : acc.length - cap = 0 := by omega
    rw [hz, List.drop_zero]
  | cons e evs ih =>
    intro acc hacc
    rw [List.foldl_cons, ih _ (storeEvent_length_le cap acc e hacc), storeEvent_eq_drop,
      drop_append_drop]
    have h3 : (acc ++ [e]) ++ evs = acc ++ e :: evs := by simp
    rw [h3]
    congr 1
    simp only [List.length_append, List.length_drop, List.length_singleton,
      List.length_cons, List.length_nil]
    omega

/-!
## Claim theorems
-/

/-- C6: For every sequence of `store` calls on an EventQueue, after any call
the number of stored events is at most the capacity, where capacity is the
configured maximum clamped up to a hard floor of 100, and the retained
events are always the most-recently-stored ones: eviction removes only the
oldest events at the head, never the newest. -/
theorem storage_capacity_invariant (cfgMax : Nat) (evs : List MGMEvent) :
    100 ≤ clampCapacity cfgMax
  ∧ (∀ k : Nat, (storeAll cfgMax (evs.take k)).length ≤ clampCapacity cfgMax)
  ∧ storeAll cfgMax evs = evs.drop (evs.length - clampCapacity cfgMax) := by
  have hmain : ∀ l : List MGMEvent,
      storeAll cfgMax l = l.drop (l.length - clampCapacity cfgMax) := by
    intro l
    rw [storeAll, foldl_storeEvent (clampCapacity cfgMax) l [] (by simp)]
    simp
  refine ⟨?_, ?_, hmain evs⟩
  · simp only [clampCapacity, MIN_STORED_EVENTS]
    omega
  · intro k
    rw [hmain]
    simp only [List.length_drop]
    omega

/-- C7: At most one flush is in flight at any time: a flush request arriving
while a flush pass is already active returns immediately as a no-op (state,
queue and rate-limit state unchanged, no delivery pass started and none
queued); a flush request in the idle state starts exactly one delivery pass
and returns the controller to idle. -/
theorem flush_at_most_one_in_flight (w : Bool) (now : Int) (bs : Nat)
    (outcomes : Nat → FetchOutcome) (st : ClientState) :
    (st.isFlushingInternal = true →
      flush w now bs outcomes st
        = { state := st, thrown := none, observerCalls := 0, ranPass := false })
  ∧ (st.isFlushingInternal = false →
      (flush w now bs outcomes st).ranPass = true
      ∧ (flush w now bs outcomes st).state.isFlushingInternal = false) := by
  constructor
  · intro h
    unfold flush
    rw [if_pos h]
  · intro h
    unfold flush
    rw [if_neg (by simp [h])]
    exact ⟨rfl, rfl⟩

/-- Witness for C7: a concrete flush request arriving while a pass is active
is an exact no-op. -/
theorem flush_at_most_one_in_flight_witness :
    ((⟨[sampleEvent], ⟨none⟩, true⟩ : ClientState).isFlushingInternal = true)
  ∧ flush true 0 1 (fun _ => FetchOutcome.response 204 none)
      ⟨[sampleEvent], ⟨none⟩, true⟩
      = { state := ⟨[sampleEvent], ⟨none⟩, true⟩, thrown := none,
          observerCalls := 0, ranPass := false } :=
  ⟨rfl,
    (flush_at_most_one_in_flight true 0 1 (fun _ => FetchOutcome.response 204 none)
      ⟨[sampleEvent], ⟨none⟩, true⟩).1 rfl⟩

/-- C8: the event record constructed by `track` carries no
`clientEventId` / `client_event_id` at all — for every name and every
tracking context the constructed object lacks the field — contradicting the
required `client_event_id` declared on `MGMEvent` in `src/types.ts` and the
tests asserting a unique UUID per event. -/
theorem buildTrackEvent_no_client_event_id (name : String) (ctx : TrackContext) :
    (buildTrackEvent name ctx).client_event_id = none := rfl

/-- C9: the flush controller never invokes any error-observer callback — the
invocation count is zero for every pass, including passes with failed
batches — contradicting the spec ("invoked once per failed batch") and the
tests asserting one invocation per failed batch. -/
theorem flush_never_invokes_error_observer (w : Bool) (now : Int) (bs : Nat)
    (outcomes : Nat → FetchOutcome) (st : ClientState) :
    (flush w now bs outcomes st).observerCalls = 0 := by
  unfold flush
  split
  · rfl
  · exact (performFlush_invariants w now bs outcomes 0 st.storage st.net).1

/-- C10: For every configuration whose apiKey is the empty string or
missing, `MostlyGoodMetrics.configure` throws before any instance is
constructed, and the singleton slot is left exactly as it was. -/
theorem configure_empty_apiKey_throws (apiKey : Option String)
    (inst : Option MGMInstance) (h : jsFalsyString apiKey = true) :
    (configure apiKey inst).returned = .error "API key is required"
  ∧ (configure apiKey inst).singleton = inst := by
  unfold configure
  rw [if_pos h]
  exact ⟨rfl, rfl⟩

/-- Witness for C10: configuring with an empty apiKey on an unconfigured
singleton throws and installs nothing. -/
theorem configure_empty_apiKey_throws_witness :
    jsFalsyString (some "") = true
  ∧ ((configure (some "") none).returned = .error "API key is required"
     ∧ (configure (some "") none).singleton = none) :=
  ⟨by decide, configure_empty_apiKey_throws (some "") none (by decide)⟩

/-- C1: within a flush pass, after each batch is sent the controller acts on
the classified result as follows: on Success it removes exactly the number
of events sent from the head of the queue and continues the loop; on
NonRetryable it removes exactly the sent count from the head anyway
(dropping the batch) and continues the loop; on Retryable or RateLimited it
removes nothing from the queue and stops the loop. -/
theorem performFlush_ack_policy (now : Int) (bs : Nat)
    (outcomes : Nat → FetchOutcome) (attempt : Nat)
    (storage : List MGMEvent) (net : NetState)
    (h0 : storage.length ≠ 0)
    (hrl : (isRateLimited now net).1 = false)
    (hev : (storage.take bs).length ≠ 0) :
    (classify (sendEvents now (outcomes attempt) (isRateLimited now net).2).result
        = .Success →
      performFlush true now bs outcomes attempt storage net =
        performFlush true now bs outcomes (attempt + 1)
          (storage.drop (storage.take bs).length)
          (sendEvents now (outcomes attempt) (isRateLimited now net).2).net)
  ∧ (classify (sendEvents now (outcomes attempt) (isRateLimited now net).2).result
        = .NonRetryable →
      performFlush true now bs outcomes attempt storage net =
        performFlush true now bs outcomes (attempt + 1)
          (storage.drop (storage.take bs).length)
          (sendEvents now (outcomes attempt) (isRateLimited now net).2).net)
  ∧ ((classify (sendEvents now (outcomes attempt) (isRateLimited now net).2).result
        = .Retryable
      ∨ ∃ c, classify (sendEvents now (outcomes attempt) (isRateLimited now net).2).result
          = .RateLimited c) →
      performFlush true now bs outcomes attempt storage net =
        ⟨storage, (sendEvents now (outcomes attempt) (isRateLimited now net).2).net,
          0, none⟩) := by
  refine ⟨fun h => ?_, fun h => ?_, fun h => ?_⟩
  · exact performFlush_continue now bs outcomes attempt storage net h0 hrl hev
      (Or.inl ((classify_eq_success_iff _).1 h))
  · obtain ⟨e, he⟩ := classify_eq_nonRetryable _ h
    exact performFlush_continue now bs outcomes attempt storage net h0 hrl hev
      (Or.inr ⟨e, he⟩)
  · obtain ⟨e, he⟩ := classify_eq_retryable_or_rateLimited now (outcomes attempt)
      (isRateLimited now net).2 h
    exact performFlush_stop now bs outcomes attempt storage net h0 hrl hev e he

/-- Witness for C1: a concrete retryable failure (HTTP 500) stops the loop,
leaving the single queued event in place. -/
theorem performFlush_ack_policy_witness :
    ([sampleEvent].length ≠ 0)
  ∧ ((isRateLimited 0 ⟨none⟩).1 = false)
  ∧ (([sampleEvent].take 1).length ≠ 0)
  ∧ performFlush true 0 1 (fun _ => FetchOutcome.response 500 none) 0
      [sampleEvent] ⟨none⟩
      = ⟨[sampleEvent], ⟨none⟩, 0, none⟩ :=
  ⟨by decide, by decide, by decide,
    (performFlush_ack_policy 0 1 (fun _ => FetchOutcome.response 500 none) 0
      [sampleEvent] ⟨none⟩ (by decide) (by decide) (by decide)).2.2
      (Or.inl (by decide))⟩

/-- Counterexample for C2: `LocalStorageEventStorage.store` does fail its
caller when the persistence write fails — the `STORAGE_ERROR` rethrown by
`saveEvents` escapes `store` at this concrete input. -/
theorem lsStore_write_failure_reaches_caller :
    (lsStore false ⟨100, []⟩ sampleEvent).thrown = some storageWriteError
  ∧ (lsStore false ⟨100, []⟩ sampleEvent).thrown ≠ none := by
  exact ⟨rfl, by decide⟩

/-- C2 (amended): when the persistence write fails,
`LocalStorageEventStorage.store` logs the failure and rethrows it as a
`STORAGE_ERROR` to its caller; the producer-facing `track` call never raises
(it catches invalid-name errors and swallows the store rejection); `flush`
never raises as long as persistence writes succeed, but a write failure
while removing a delivered batch propagates the `STORAGE_ERROR` out of
`flush` (shown on a one-event queue whose batch is accepted with HTTP 204
while localStorage writes fail). -/
theorem store_failure_and_producer_policy :
    (∀ (st : LSState) (e : MGMEvent),
      (lsStore false st e).thrown = some storageWriteError)
  ∧ (∀ (writeOk : Bool) (name : String) (ctx : TrackContext) (st : LSState),
      (track writeOk name ctx st).thrown = none)
  ∧ (∀ (now : Int) (bs : Nat) (outcomes : Nat → FetchOutcome) (st : ClientState),
      (flush true now bs outcomes st).thrown = none)
  ∧ (flush false 0 1 (fun _ => FetchOutcome.response 204 none)
      ⟨[sampleEvent], ⟨none⟩, false⟩).thrown = some storageWriteError := by
  refine ⟨fun st e => rfl, fun w name ctx st => ?_,
    fun now bs outcomes st => ?_, ?_⟩
  · cases hv : validateEventName name <;> simp [track, hv]
  · unfold flush
    split
    · rfl
    · exact (performFlush_invariants true now bs outcomes 0 st.storage st.net).2 rfl
  · unfold flush
    rw [if_neg (by decide)]
    show (performFlush false 0 1 (fun _ => FetchOutcome.response 204 none) 0
        [sampleEvent] ⟨none⟩).thrown = some storageWriteError
    unfold performFlush
    rw [if_neg (by decide), if_neg (by decide), dif_neg (by decide)]
    have hs : (sendEvents 0 ((fun _ : Nat => FetchOutcome.response 204 none) 0)
        (isRateLimited 0 (⟨none⟩ : NetState)).2).result = .success := by decide
    simp only [hs]
    simp

/-- C3: `DeliveryClient.send` classifies the outcome of every request: HTTP
200 or 204 yields Success; 429 yields RateLimited with the cooldown taken
from the Retry-After header when present and 60 seconds otherwise, setting
the rate-limit state to now + cooldownSeconds (in milliseconds); any other
status in 400-499 yields NonRetryable; and 500-599, a network/transport
exception or a request timeout yields Retryable. -/
theorem sendEvents_status_classification (now : Int) (st : NetState)
    (status : Nat) (hdr : Option Int)
    (hrl : (isRateLimited now st).1 = false) :
    ((status = 200 ∨ status = 204) →
      (sendEvents now (.response status hdr) st).result = .success)
  ∧ (status = 429 →
      classify (sendEvents now (.response status hdr) st).result
          = .RateLimited (hdr.getD 60)
      ∧ (sendEvents now (.response status hdr) st).net.retryAfterTime
          = some (now + hdr.getD 60 * 1000))
  ∧ (400 ≤ status → status < 500 → status ≠ 429 →
      classify (sendEvents now (.response status hdr) st).result = .NonRetryable)
  ∧ (500 ≤ status → status ≤ 599 →
      classify (sendEvents now (.response status hdr) st).result = .Retryable)
  ∧ classify (sendEvents now .abortError st).result = .Retryable
  ∧ (∀ msg, classify (sendEvents now (.networkError msg) st).result = .Retryable) := by
  refine ⟨fun h => ?_, fun h => ?_, fun h1 h2 h3 => ?_, fun h1 h2 => ?_, ?_,
    fun msg => ?_⟩
  · simp [sendEvents, handleResponse, hrl, h.symm]
  · subst h
    constructor <;> simp [sendEvents, handleResponse, hrl, classify]
  · have hns : ¬(status = 204 ∨ status = 200) := by omega
    by_cases e400 : status = 400
    · subst e400
      simp [sendEvents, handleResponse, hrl, classify]
    · by_cases e401 : status = 401
      · subst e401
        simp [sendEvents, handleResponse, hrl, classify]
      · by_cases e403 : status = 403
        · subst e403
          simp [sendEvents, handleResponse, hrl, classify]
        · simp [sendEvents, handleResponse, hrl, hns, h3,
            (⟨h1, h2⟩ : 400 ≤ status ∧ status < 500), e400, e401, e403, classify]
  · simp only [sendEvents]
    rw [if_neg (by simp [hrl])]
    simp only [handleResponse]
    rw [if_neg (by omega : ¬(status = 204 ∨ status = 200)),
      if_neg (by omega : ¬status = 429),
      if_neg (by omega : ¬(400 ≤ status ∧ status < 500)),
      if_pos h1]
    simp [classify]
  · simp [sendEvents, hrl, classify]
  · simp [sendEvents, hrl, classify]

/-- Witness for C3: a concrete 429 with Retry-After 120 classifies as
RateLimited 120 and stores the deadline 120000 ms from now. -/
theorem sendEvents_status_classification_witness :
    ((isRateLimited 0 ⟨none⟩).1 = false)
  ∧ classify (sendEvents 0 (FetchOutcome.response 429 (some 120)) ⟨none⟩).result
      = .RateLimited 120
  ∧ (sendEvents 0 (FetchOutcome.response 429 (some 120)) ⟨none⟩).net.retryAfterTime
      = some 120000 :=
  ⟨by decide,
    ((sendEvents_status_classification 0 ⟨none⟩ 429 (some 120) (by decide)).2.1 rfl).1,
    by
      have h := ((sendEvents_status_classification 0 ⟨none⟩ 429 (some 120)
        (by decide)).2.1 rfl).2
      simpa using h⟩

/-- Counterexample for C4: HTTP 201 is in the 2xx class but
`DeliveryClient.send` does not return Success for it. -/
theorem sendEvents_201_not_success :
    (200 ≤ 201 ∧ 201 ≤ 299)
  ∧ (sendEvents 0 (FetchOutcome.response 201 none) ⟨none⟩).result
      ≠ SendResult.success := by
  decide

/-- C4 (amended): among the 2xx class, only HTTP 200 and 204 yield Success;
any other 2xx status falls through to the unexpected-status branch and is
classified as a retryable failure (the batch is kept, not treated as
accepted). -/
theorem sendEvents_2xx_success_iff (now : Int) (st : NetState)
    (status : Nat) (hdr : Option Int)
    (hrl : (isRateLimited now st).1 = false)
    (h2 : 200 ≤ status) (h2b : status ≤ 299) :
    ((sendEvents now (.response status hdr) st).result = .success
      ↔ (status = 200 ∨ status = 204))
  ∧ (status ≠ 200 → status ≠ 204 →
      classify (sendEvents now (.response status hdr) st).result = .Retryable) := by
  have main : ¬(status = 204 ∨ status = 200) →
      (sendEvents now (.response status hdr) st).result
        = .failure { type := .UNKNOWN_ERROR
                     message := "Unexpected status code: " ++ toString status
                     statusCode := some status } true := by
    intro hns
    simp only [sendEvents]
    rw [if_neg (by simp [hrl])]
    simp only [handleResponse]
    rw [if_neg hns, if_neg (by omega : ¬status = 429),
      if_neg (by omega : ¬(400 ≤ status ∧ status < 500)),
      if_neg (by omega : ¬500 ≤ status)]
  refine ⟨⟨fun hsucc => ?_, fun h => ?_⟩, fun hn200 hn204 => ?_⟩
  · by_contra hne
    push_neg at hne
    rw [main (by tauto)] at hsucc
    exact absurd hsucc (by simp)
  · simp [sendEvents, handleResponse, hrl, h.symm]
  · rw [main (by tauto)]
    simp [classify]

/-- Witness for C4: at HTTP 204 the iff holds concretely. -/
theorem sendEvents_2xx_success_iff_witness :
    ((isRateLimited 0 ⟨none⟩).1 = false ∧ 200 ≤ 204 ∧ 204 ≤ 299)
  ∧ ((sendEvents 0 (FetchOutcome.response 204 none) ⟨none⟩).result = .success
      ↔ (204 = 200 ∨ 204 = 204)) :=
  ⟨⟨by decide, by decide, by decide⟩,
    (sendEvents_2xx_success_iff 0 ⟨none⟩ 204 none (by decide) (by decide)
      (by decide)).1⟩

/-- C5: while the current time is before the stored cooldown deadline, every
`send` short-circuits to a RateLimited result without any network call and
leaves the state unchanged; the first observation at or past the deadline
clears the rate-limit state, and a send after the cooldown elapses reaches
the network again. -/
theorem sendEvents_rate_limit_short_circuit (st : NetState) (t now later : Int)
    (o o2 : FetchOutcome)
    (hset : st.retryAfterTime = some t) (hnow : now < t) (hlater : t ≤ later) :
    (sendEvents now o st).networkCalled = false
  ∧ (∃ c, classify (sendEvents now o st).result = .RateLimited c)
  ∧ (sendEvents now o st).net = st
  ∧ isRateLimited later st = (false, ⟨none⟩)
  ∧ (sendEvents later o2 st).networkCalled = true := by
  have hrl1 : isRateLimited now st = (true, st) := by
    simp only [isRateLimited, hset]
    rw [if_neg (by omega)]
  have hrl2 : isRateLimited later st = (false, ⟨none⟩) := by
    simp only [isRateLimited, hset]
    rw [if_pos (by omega)]
  refine ⟨?_, ⟨ceilDiv1000 (t - now), ?_⟩, ?_, hrl2, ?_⟩
  · simp [sendEvents, hrl1]
  · simp [sendEvents, hrl1, hset, classify]
  · simp [sendEvents, hrl1]
  · cases o2 <;> simp [sendEvents, hrl2]

/-- Witness for C5: after a 429 sets a 60 s cooldown at time 0, a send at
1 s short-circuits without touching the network, and a send at 61 s reaches
it again. -/
theorem sendEvents_rate_limit_short_circuit_witness :
    ((⟨some 60000⟩ : NetState).retryAfterTime = some 60000
      ∧ (1000 : Int) < 60000 ∧ (60000 : Int) ≤ 61000)
  ∧ ((sendEvents 0 (FetchOutcome.response 429 (some 60)) ⟨none⟩).net
      = ⟨some 60000⟩)
  ∧ ((sendEvents 1000 FetchOutcome.abortError ⟨some 60000⟩).networkCalled = false
     ∧ (∃ c, classify (sendEvents 1000 FetchOutcome.abortError ⟨some 60000⟩).result
          = .RateLimited c)
     ∧ (sendEvents 1000 FetchOutcome.abortError ⟨some 60000⟩).net = ⟨some 60000⟩
     ∧ isRateLimited 61000 ⟨some 60000⟩ = (false, ⟨none⟩)
     ∧ (sendEvents 61000 (FetchOutcome.response 204 none) ⟨some 60000⟩).networkCalled
          = true) :=
  ⟨⟨rfl, by decide, by decide⟩, by decide,
    sendEvents_rate_limit_short_circuit ⟨some 60000⟩ 60000 1000 61000
      FetchOutcome.abortError (FetchOutcome.response 204 none) rfl
      (by decide) (by decide)⟩
